import Mathlib

/-!
Shallow embedding of the CSP admin batch-automation repository
(`src/src/shared/action_counter.py`, `src/src/shared/retry_utils.py`,
`src/src/shared/handler_wrapper.py`, `src/src/csp/csp_admin_change_role_and_branch.py`,
`src/src/features/csp/handlers/csp_branch_handler.py`), together with theorems
checking the specification's claims about it.

Driver (Nova Act) interactions are modelled as oracles: every `nova.act(...)`
call that returns a boolean is an environment field, and every action issued to
the driver is recorded as an abstract effect.  Machine floats for timestamps are
modelled as integers (the code only compares elapsed seconds with integral
cooldowns and multiplies integral delays).
-/

/-! ## String helpers (Python `in`, `.lower()`, `.startswith`) -/

/-- Python `needle in hay` on lists of characters: `needle` occurs as a
contiguous substring of `hay`. -/
def listContains (needle : List Char) : List Char → Bool
  | [] => needle.isEmpty
  | c :: t => needle.isPrefixOf (c :: t) || listContains needle t

/-- Python `needle in hay` for strings. -/
def strContains (needle hay : String) : Bool :=
  listContains needle.data hay.data

/-- Python `s.lower()`. -/
def strLower (s : String) : String :=
  ⟨s.data.map Char.toLower⟩

/-- Python `s.startswith(pre)`. -/
def strStarts (s pre : String) : Bool :=
  pre.data.isPrefixOf s.data

/-! ## Error classification — `src/src/shared/retry_utils.py` lines 57-98 -/

/-- Embeds `is_timeout_error` (retry_utils.py lines 57-64). -/
def is_timeout_error (msg : String) : Bool :=
  let e := strLower msg
  strContains "timeout" e || strContains "timeouterror" e || strContains "timed out" e

/-- The `network_keywords` list of `is_network_error` (retry_utils.py lines 70-81). -/
def network_keywords : List String :=
  ["nameresolutionerror", "connection", "network", "dns", "unreachable",
   "max retries exceeded", "failed to resolve", "httpsconnectionpool",
   "connectionerror", "refused"]

/-- Embeds `is_network_error` (retry_utils.py lines 67-82): the lowered message
contains one of the network keywords. -/
def is_network_error (msg : String) : Bool :=
  let e := strLower msg
  network_keywords.any (fun kw => strContains kw e)

/-! ## Exceptions -/

/-- The exception values the orchestration code distinguishes.  Each carries the
`str(e)` message the Python code matches on. -/
inductive PyErr where
  | infiniteLoop (msg : String)
  | circuitOpen (msg : String)
  | retryExhausted (msg : String)
  | other (msg : String)
deriving DecidableEq, Repr

/-- Python `str(e)`. -/
def PyErr.msg : PyErr → String
  | .infiniteLoop s => s
  | .circuitOpen s => s
  | .retryExhausted s => s
  | .other s => s

/-! ## ActionCounter — `src/src/shared/action_counter.py` -/

/-- State of `ActionCounter` (action_counter.py lines 23-33). -/
structure ActionCounter where
  count : Nat
  max_actions : Nat
deriving DecidableEq, Repr

/-- Result of one `ActionCounter.safe_act` call: the updated counter, whether
`nova.act` was dispatched, and whether `InfiniteLoopException` was raised. -/
structure SafeActResult where
  counter : ActionCounter
  dispatched : Bool
  raised : Bool
deriving DecidableEq, Repr

/-- Embeds `ActionCounter.safe_act` (action_counter.py lines 36-70): increment
the counter first; if it now exceeds `max_actions`, raise
`InfiniteLoopException` before executing `nova.act`; otherwise dispatch. -/
def safe_act (c : ActionCounter) : SafeActResult :=
  let c1 : ActionCounter := { c with count := c.count + 1 }
  if c1.count > c.max_actions then
    { counter := c1, dispatched := false, raised := true }
  else
    { counter := c1, dispatched := true, raised := false }

/-! ## NetworkCircuitBreaker — `src/src/shared/retry_utils.py` lines 233-287 -/

/-- State of `NetworkCircuitBreaker` (retry_utils.py lines 236-241). -/
structure BreakerState where
  failure_count : Nat
  failure_threshold : Nat
  cooldown_seconds : Int
  last_failure_time : Option Int
  is_open : Bool
deriving DecidableEq, Repr

/-- A freshly constructed breaker (retry_utils.py `__init__`). -/
def mkBreaker (threshold : Nat) (cooldown : Int) : BreakerState :=
  { failure_count := 0, failure_threshold := threshold,
    cooldown_seconds := cooldown, last_failure_time := none, is_open := false }

/-- The message of the exception raised while the circuit is open
(retry_utils.py lines 254-257). -/
def circuitOpenMsg (remaining : Int) : String :=
  "Circuit breaker is OPEN. Network appears down. Wait " ++ toString remaining
    ++ "s before retry..."

/-- Result of one `NetworkCircuitBreaker.call`: the returned value or raised
exception, the state afterwards, and whether the wrapped function was invoked. -/
structure BreakerCallResult where
  result : Except PyErr Bool
  state : BreakerState
  invoked : Bool

/-- The `try` block of `NetworkCircuitBreaker.call` (retry_utils.py lines
264-286): the wrapped function is invoked; success resets the failure counter,
a network-classified failure increments it, records the failure time and opens
the breaker when the threshold is reached, and any failure is re-raised. -/
def breakerRecordOutcome (s : BreakerState) (now : Int) (outcome : Except PyErr Bool) :
    BreakerCallResult :=
  match outcome with
  | .ok v => { result := .ok v, state := { s with failure_count := 0 }, invoked := true }
  | .error e =>
      if is_network_error e.msg then
        let c := s.failure_count + 1
        let s1 : BreakerState :=
          { s with failure_count := c, last_failure_time := some now,
                   is_open := (if s.failure_threshold ≤ c then true else s.is_open) }
        { result := .error e, state := s1, invoked := true }
      else
        { result := .error e, state := s, invoked := true }

/-- Embeds `NetworkCircuitBreaker.call` (retry_utils.py lines 243-286).  `now`
is the value of `time.time()` during this call and `outcome` is what the
wrapped function produces if it is invoked. -/
def breakerCall (s : BreakerState) (now : Int) (outcome : Except PyErr Bool) :
    BreakerCallResult :=
  if s.is_open then
    match s.last_failure_time with
    | some t =>
        let elapsed := now - t
        if elapsed < s.cooldown_seconds then
          { result := .error (.circuitOpen (circuitOpenMsg (s.cooldown_seconds - elapsed))),
            state := s, invoked := false }
        else
          breakerRecordOutcome { s with is_open := false } now outcome
    | none =>
        -- `elapsed = float("inf")` is never below the cooldown: half-open.
        breakerRecordOutcome { s with is_open := false } now outcome
  else
    breakerRecordOutcome s now outcome

/-- One call arriving at the breaker: its `time.time()` and the wrapped
function's outcome. -/
structure CallEvent where
  time : Int
  outcome : Except PyErr Bool

/-- Runs a sequence of calls through the breaker, tracking only the state. -/
def foldBreaker (s : BreakerState) : List CallEvent → BreakerState
  | [] => s
  | ev :: rest => foldBreaker (breakerCall s ev.time ev.outcome).state rest

/-- An event whose wrapped call fails with a network-classified error. -/
def isNetFailure (ev : CallEvent) : Bool :=
  match ev.outcome with
  | .ok _ => false
  | .error e => is_network_error e.msg

/-- The time of the last event of the list, defaulting to `d`. -/
def lastTimeAfter (evs : List CallEvent) (d : Option Int) : Option Int :=
  match evs with
  | [] => d
  | ev :: rest => lastTimeAfter rest (some ev.time)

/-! ## HandlerWrapper.execute_with_retry — `src/src/shared/handler_wrapper.py` -/

/-- The retry delay chosen by `HandlerWrapper.execute_with_retry`
(handler_wrapper.py lines 67-74): exponential for network errors, linear
otherwise, capped at 120 seconds. -/
def handlerDelay (e : PyErr) (attempt : Nat) : Nat :=
  let d := if is_network_error e.msg then 5 * 2 ^ attempt else 2 * (attempt + 1)
  min d 120

/-- Result of `HandlerWrapper.execute_with_retry`: the boolean it returns, the
circuit-breaker state afterwards, how many times the handler function itself
was invoked, and the sleeps performed between attempts. -/
structure RetryRunResult where
  success : Bool
  state : BreakerState
  invocations : Nat
  delays : List Nat

/-- Loop body of `execute_with_retry` (handler_wrapper.py lines 49-85).
`outcomes n` is what the handler produces on attempt `n` if it is invoked,
`times n` is `time.time()` during attempt `n`, and the final `Nat` argument is
the number of attempts remaining (`max_retries - attempt`). -/
def executeWithRetryAux (st : BreakerState) (outcomes : Nat → Except PyErr Bool)
    (times : Nat → Int) (attempt : Nat) (invs : Nat) (ds : List Nat) :
    Nat → RetryRunResult
  | 0 => { success := false, state := st, invocations := invs, delays := ds.reverse }
  | remaining + 1 =>
    let r := breakerCall st (times attempt) (outcomes attempt)
    let invs1 := invs + (if r.invoked then 1 else 0)
    match r.result with
    | .ok _ =>
        -- any non-raising handler return counts as success, its value is ignored
        { success := true, state := r.state, invocations := invs1, delays := ds.reverse }
    | .error e =>
        if remaining = 0 then
          -- `attempt == max_retries - 1`: give up and return False
          { success := false, state := r.state, invocations := invs1, delays := ds.reverse }
        else
          executeWithRetryAux r.state outcomes times (attempt + 1) invs1
            (handlerDelay e attempt :: ds) remaining

/-- Embeds `HandlerWrapper.execute_with_retry` (handler_wrapper.py lines
27-85): up to `max_retries` attempts, each routed through the shared circuit
breaker; returns `True` as soon as an attempt does not raise, `False` once all
attempts are exhausted. -/
def execute_with_retry (st : BreakerState) (outcomes : Nat → Except PyErr Bool)
    (times : Nat → Int) (max_retries : Nat) : RetryRunResult :=
  executeWithRetryAux st outcomes times 0 0 [] max_retries

/-! ## with_retry decorator — `src/src/shared/retry_utils.py` lines 140-226 -/

/-- Result of a `with_retry`-wrapped call: the returned value or raised
exception, and how many times the wrapped function was invoked. -/
structure WithRetryResult where
  result : Except PyErr Bool
  invocations : Nat

/-- Loop body of the `with_retry` wrapper (retry_utils.py lines 167-218).
`skip` is membership in `exceptions_to_skip`; all call sites in the repository
leave it at its default `()`, i.e. `fun _ => false`.  The final `Nat` argument
is the number of attempts remaining. -/
def withRetryAux (skip : PyErr → Bool) (outcomes : Nat → Except PyErr Bool)
    (attempt : Nat) (invs : Nat) : Nat → WithRetryResult
  | 0 =>
      { result := .error (.retryExhausted "failed after all attempts"),
        invocations := invs }
  | remaining + 1 =>
      match outcomes attempt with
      | .ok v => { result := .ok v, invocations := invs + 1 }
      | .error e =>
          if skip e then
            -- non-retryable exception: re-raised unchanged
            { result := .error e, invocations := invs + 1 }
          else if remaining = 0 then
            { result := .error (.retryExhausted "failed after all attempts"),
              invocations := invs + 1 }
          else
            withRetryAux skip outcomes (attempt + 1) (invs + 1) remaining

/-- Embeds the `with_retry` decorator (retry_utils.py lines 140-226):
`max_retries` attempts; exceptions in `exceptions_to_skip` are re-raised
immediately, all others are retried with backoff until the budget is spent,
after which a `RetryException` is raised. -/
def with_retry (skip : PyErr → Bool) (outcomes : Nat → Except PyErr Bool)
    (max_retries : Nat) : WithRetryResult :=
  withRetryAux skip outcomes 0 0 max_retries

/-! ## Driver effects and session data -/

/-- Abstract classification of the `nova.act` instructions the pipeline issues.
`navigate`/`query`/`typeSearch`/`closeModal` only move around or read the page;
`clearRole`/`selectRole`/`selectLevel`/`applySelection` edit form fields, and
`clickSave` is the persisting Save operation. -/
inductive DriverEffect where
  | navigate
  | query
  | typeSearch (text : String)
  | closeModal
  | clearRole
  | selectRole (role : String)
  | selectLevel (label : String)
  | applySelection
  | clickSave
deriving DecidableEq, Repr

/-- Effects that change the edit form or persist it, as opposed to reading or
navigating. -/
def DriverEffect.isMutating : DriverEffect → Bool
  | .navigate => false
  | .query => false
  | .typeSearch _ => false
  | .closeModal => false
  | .clearRole => true
  | .selectRole _ => true
  | .selectLevel _ => true
  | .applySelection => true
  | .clickSave => true

/-- The `self.session_data` dictionary keys the pipeline uses
(csp_admin_change_role_and_branch.py); `none` models a missing key, read back
with `dict.get(key, False)`. -/
structure SessionData where
  last_role_change_performed : Option Bool
  last_branch_change_performed : Option Bool
  branch_saved : Option Bool
deriving DecidableEq, Repr

/-- A fresh `CSPAdminRoleAndBranchChanger` has `session_data = {}`. -/
def emptySession : SessionData :=
  { last_role_change_performed := none, last_branch_change_performed := none,
    branch_saved := none }

/-- Outcome of one pipeline step method: the boolean it returns, the session
dictionary afterwards, and the driver actions it issued. -/
structure StepResult where
  ok : Bool
  sess : SessionData
  effects : List DriverEffect
deriving DecidableEq, Repr

/-! ## change_user_role — csp_admin_change_role_and_branch.py lines 515-606 -/

/-- Oracle answers for the boolean-schema driver queries inside
`change_user_role`. -/
structure RoleEnv where
  on_roles_tab : Bool
  role_pre_match : Bool
  role_populated : Bool
  role_populated_retry : Bool
  role_verify : Bool
deriving DecidableEq, Repr

/-- Embeds `CSPAdminRoleAndBranchChanger.change_user_role` (lines 515-606):
navigate to the Roles tab and verify it; if the Role field already shows
`new_role` exactly, record `last_role_change_performed = False` and succeed
without touching any field; otherwise clear the role, search-select the new
one (with one alternative-selection fallback), and verify the final value. -/
def change_user_role (env : RoleEnv) (sess : SessionData) (new_role : String) :
    StepResult :=
  -- click the Roles tab (line 522), verify it is active (lines 527-535)
  let effs0 : List DriverEffect := [.navigate, .query]
  if !env.on_roles_tab then { ok := false, sess := sess, effects := effs0 }
  else
    -- pre-check: Role field already shows new_role exactly (lines 542-552)
    let effs1 := effs0 ++ [.query]
    if env.role_pre_match then
      { ok := true,
        sess := { sess with last_role_change_performed := some false },
        effects := effs1 }
    else
      -- clear the current role, search and select the new one (lines 556-571)
      let effs2 := effs1 ++ [.clearRole, .selectRole new_role, .query]
      if !env.role_populated then
        -- alternative selection attempt (lines 574-588)
        let effs3 := effs2 ++ [.selectRole new_role, .query]
        if !env.role_populated_retry then
          { ok := false, sess := sess, effects := effs3 }
        else
          -- final verification (lines 590-606)
          let effs4 := effs3 ++ [.query]
          if env.role_verify then
            { ok := true,
              sess := { sess with last_role_change_performed := some true },
              effects := effs4 }
          else
            { ok := false,
              sess := { sess with last_role_change_performed := some false },
              effects := effs4 }
      else
        let effs4 := effs2 ++ [.query]
        if env.role_verify then
          { ok := true,
            sess := { sess with last_role_change_performed := some true },
            effects := effs4 }
        else
          { ok := false,
            sess := { sess with last_role_change_performed := some false },
            effects := effs4 }

/-! ## change_user_branch_hierarchical — lines 608-820 -/

/-- Oracle answers for the driver queries inside
`change_user_branch_hierarchical`. -/
structure BranchEnv where
  bank_pre : Bool
  bank_panel_loads : Bool
  bank_verify : Bool
  scope_pre : Bool
  scope_panel_loads : Bool
  scope_verify : Bool
  final_bank : Bool
  final_scope : Bool
  save_ok : Bool
  save_wait : Bool
deriving DecidableEq, Repr

/-- Actions issued while navigating one hierarchy level inside a selection
panel (lines 661-678 / 724-741): levels 0 and 1 are single clicks; deeper
levels type into the search box and then tick the matching checkbox. -/
def levelEffects (i : Nat) (level : String) : List DriverEffect :=
  match i with
  | 0 => [.selectLevel level]
  | 1 => [.selectLevel level]
  | _ => [.typeSearch level, .selectLevel level]

/-- Actions issued to walk a whole hierarchy through a selection panel. -/
def navEffects (hierarchy : List String) : List DriverEffect :=
  hierarchy.enum.flatMap (fun p => levelEffects p.1 p.2)

/-- Third stage of `change_user_branch_hierarchical`: final verification of
both fields (lines 762-788) followed by the save-or-skip logic (lines
790-820). -/
def branchFinalPart (env : BranchEnv) (sess : SessionData)
    (bank_needs scope_needs auto_save : Bool) (effs : List DriverEffect) :
    StepResult :=
  -- final verification re-reads the Bank user and Scope fields (768-776)
  let effs1 := effs ++ [.query, .query]
  if !(env.final_bank && env.final_scope) then
    { ok := false, sess := sess, effects := effs1 }
  else if auto_save then
    if bank_needs || scope_needs then
      -- click the green Save button and wait for it to complete (796-809)
      let effs2 := effs1 ++ [.clickSave]
      if !env.save_ok then { ok := false, sess := sess, effects := effs2 }
      else if !env.save_wait then { ok := false, sess := sess, effects := effs2 }
      else
        { ok := true,
          sess := { sess with last_branch_change_performed := some true,
                              branch_saved := some true },
          effects := effs2 }
    else
      -- both fields already matched: nothing to save (810-813)
      { ok := true,
        sess := { sess with last_branch_change_performed := some false,
                            branch_saved := some true },
        effects := effs1 }
  else
    -- auto_save disabled: record whether anything changed (814-817)
    { ok := true,
      sess := { sess with last_branch_change_performed := some (bank_needs || scope_needs),
                          branch_saved := some false },
      effects := effs1 }

/-- Second stage of `change_user_branch_hierarchical`: the Scope field
(lines 699-760).  Pre-check the field; if it lacks the target, open the scope
panel, walk the hierarchy, apply and verify. -/
def branchScopePart (env : BranchEnv) (sess : SessionData)
    (branch_hierarchy : List String) (bank_needs auto_save : Bool)
    (effs : List DriverEffect) : StepResult :=
  -- scope pre-check (706-709)
  let effs1 := effs ++ [.query]
  if !env.scope_pre then
    -- open the scope selection panel (714-721)
    let effs2 := effs1 ++ [.navigate]
    if !env.scope_panel_loads then { ok := false, sess := sess, effects := effs2 }
    else
      -- walk the hierarchy, apply the selection, verify (723-758)
      let effs3 := effs2 ++ navEffects branch_hierarchy ++ [.applySelection, .query]
      if !env.scope_verify then { ok := false, sess := sess, effects := effs3 }
      else branchFinalPart env sess bank_needs true auto_save effs3
  else
    -- scope already contains the target token (759-760)
    branchFinalPart env sess bank_needs false auto_save effs1

/-- Embeds `CSPAdminRoleAndBranchChanger.change_user_branch_hierarchical`
(lines 608-820): reject an empty hierarchy; change the Bank user field, then
the Scope field (each skipped if it already contains the target leaf), then
verify both fields and save or skip. -/
def change_user_branch_hierarchical (env : BranchEnv) (sess : SessionData)
    (branch_hierarchy : List String) (auto_save : Bool) : StepResult :=
  if branch_hierarchy.isEmpty then
    -- empty hierarchy guard (623-625)
    { ok := false, sess := sess, effects := [] }
  else
    -- ensure the Roles tab is active (631), bank-user pre-check (643-646)
    let effs0 : List DriverEffect := [.navigate, .query]
    if !env.bank_pre then
      -- open the bank user selection panel (651-658)
      let effs1 := effs0 ++ [.navigate]
      if !env.bank_panel_loads then { ok := false, sess := sess, effects := effs1 }
      else
        -- walk the hierarchy, apply the selection, verify (660-695)
        let effs2 := effs1 ++ navEffects branch_hierarchy ++ [.applySelection, .query]
        if !env.bank_verify then { ok := false, sess := sess, effects := effs2 }
        else branchScopePart env sess branch_hierarchy true auto_save effs2
    else
      -- bank user already contains the target token (696-697)
      branchScopePart env sess branch_hierarchy false auto_save effs0

/-! ## process_single_user — csp_admin_change_role_and_branch.py lines 904-1118 -/

/-- Embeds `UserChangeRequest` (lines 104-109). -/
structure UserChangeRequest where
  target_user : String
  new_role : Option String
  new_branch : Option String
  branch_hierarchy : Option (List String)
deriving DecidableEq, Repr

/-- Python truthiness of an `Optional[str]`: `None` and `""` are falsy. -/
def pyStr (s : Option String) : Bool :=
  match s with
  | none => false
  | some v => !(v == "")

/-- Python truthiness of an `Optional[List[str]]`: `None` and `[]` are falsy. -/
def pyList (l : Option (List String)) : Bool :=
  match l with
  | none => false
  | some v => !v.isEmpty

/-- Python `value or "unchanged"` on an optional string. -/
def orUnchanged (s : Option String) : String :=
  match s with
  | none => "unchanged"
  | some v => if v == "" then "unchanged" else v

/-- Embeds `CSPAdminRoleAndBranchChanger._convert_to_hierarchy` (lines
822-836): a flat branch name becomes the default 3-level hierarchy. -/
def convert_to_hierarchy (branch_name : String) : List String :=
  ["VIB Bank", "North", branch_name]

/-- The hierarchy `process_single_user` navigates with (lines 956-961 and
1033-1038): the request's `branch_hierarchy` when it is truthy, otherwise the
default hierarchy derived from `new_branch`. -/
def hierarchy_to_use (req : UserChangeRequest) : List String :=
  if pyList req.branch_hierarchy then req.branch_hierarchy.getD []
  else convert_to_hierarchy (req.new_branch.getD "")

/-- Embeds `CSPAdminRoleAndBranchChanger.save_changes` (lines 838-861): click
the green Save button, then verify; on failure an extra error-message query is
made. -/
def save_changes (save_succeeds : Bool) : Bool × List DriverEffect :=
  if save_succeeds then (true, [.clickSave, .query])
  else (false, [.clickSave, .query, .query])

/-- Oracle answers for one full `process_single_user` run. -/
structure PipelineEnv where
  user_found : Bool
  role : RoleEnv
  branch : BranchEnv
  save_changes_ok : Bool
deriving DecidableEq, Repr

/-- Embeds `RoleChangeResult` (lines 118-124) minus the wall-clock timestamp. -/
structure UserResult where
  user_email : String
  new_role : String
  new_branch : String
  status : String
deriving DecidableEq, Repr

/-- Outcome of `process_single_user`: the boolean it returns, the
`RoleChangeResult` it appends to `self.results`, the session dictionary
afterwards, and the driver actions issued. -/
structure ProcessOutcome where
  returned : Bool
  result : UserResult
  sess : SessionData
  effects : List DriverEffect
deriving DecidableEq, Repr

/-- The failure-path `RoleChangeResult` (e.g. lines 920-926): both fields fall
back to `"unchanged"` when falsy.  (On the role/branch failure paths the
corresponding field is always truthy, so `new_role=user_request.new_role` at
lines 945/1005 coincides with this.) -/
def mkFailResult (req : UserChangeRequest) (status : String) : UserResult :=
  { user_email := req.target_user, new_role := orUnchanged req.new_role,
    new_branch := orUnchanged req.new_branch, status := status }

/-- The `effective_new_branch` of the success path (lines 1065-1068): the last
hierarchy level when a truthy hierarchy was supplied, else `new_branch` or
`"unchanged"`. -/
def effective_new_branch (req : UserChangeRequest) : String :=
  if pyList req.branch_hierarchy then (req.branch_hierarchy.getD []).getLast?.getD ""
  else orUnchanged req.new_branch

/-- The success-path status message (lines 1074-1095), chosen from what was
requested and what was actually changed. -/
def successStatus (role_requested branch_requested role_changed branch_changed : Bool) :
    String :=
  if role_requested && branch_requested then
    if role_changed && branch_changed then "success - role and branch updated"
    else if role_changed then "success - role updated"
    else if branch_changed then "success - branch updated"
    else "success - no changes needed, already configured correctly"
  else if role_requested then
    if role_changed then "success - role updated" else "success - role already correct"
  else if branch_requested then
    if branch_changed then "success - branch updated" else "success - branch already correct"
  else "success - no changes requested"

/-- The success epilogue of `process_single_user` (lines 1065-1106): build the
status from the final session flags and append the success result. -/
def finishUser (req : UserChangeRequest) (sessF : SessionData)
    (effs : List DriverEffect) : ProcessOutcome :=
  let role_requested := pyStr req.new_role
  let branch_requested := pyStr req.new_branch || pyList req.branch_hierarchy
  let status := successStatus role_requested branch_requested
    (sessF.last_role_change_performed.getD false)
    (sessF.last_branch_change_performed.getD false)
  { returned := true,
    result := { user_email := req.target_user, new_role := orUnchanged req.new_role,
                new_branch := effective_new_branch req, status := status },
    sess := sessF, effects := effs }

/-- Actions issued by `search_user` (lines 343-437): filter expansion, typing
the login, clicking Search, and table verifications — reads and navigation
only, no field edit and no Save. -/
def searchEffects : List DriverEffect := [.navigate, .query]

/-- Embeds `CSPAdminRoleAndBranchChanger.process_single_user` (lines
904-1118): search for the user, apply the requested role and/or branch change
with their pre-checks, save once if and only if something actually changed,
and append exactly one result whose status encodes the outcome. -/
def process_single_user (env : PipelineEnv) (sess : SessionData)
    (req : UserChangeRequest) : ProcessOutcome :=
  if !env.user_found then
    -- user not found (918-927)
    { returned := false, result := mkFailResult req "failed - user not found",
      sess := sess, effects := searchEffects }
  else
    let role_requested := pyStr req.new_role
    let branch_requested := pyStr req.new_branch || pyList req.branch_hierarchy
    if role_requested && branch_requested then
      -- both role and branch, single save (937-997)
      let r1 := change_user_role env.role sess (req.new_role.getD "")
      if !r1.ok then
        { returned := false, result := mkFailResult req "failed - role change failed",
          sess := r1.sess, effects := searchEffects ++ r1.effects }
      else
        let role_changed := r1.sess.last_role_change_performed.getD false
        let r2 := change_user_branch_hierarchical env.branch r1.sess
          (hierarchy_to_use req) false
        if !r2.ok then
          { returned := false, result := mkFailResult req "failed - branch change failed",
            sess := r2.sess, effects := searchEffects ++ r1.effects ++ r2.effects }
        else
          let branch_changed := r2.sess.last_branch_change_performed.getD false
          if role_changed || branch_changed then
            let s := save_changes env.save_changes_ok
            if !s.1 then
              { returned := false, result := mkFailResult req "failed - save failed",
                sess := r2.sess,
                effects := searchEffects ++ r1.effects ++ r2.effects ++ s.2 }
            else
              finishUser req r2.sess
                (searchEffects ++ r1.effects ++ r2.effects ++ s.2)
          else
            -- nothing changed: close the modal without saving (993-997)
            finishUser req r2.sess
              (searchEffects ++ r1.effects ++ r2.effects ++ [.closeModal])
    else if role_requested then
      -- role only (999-1027)
      let r1 := change_user_role env.role sess (req.new_role.getD "")
      if !r1.ok then
        { returned := false, result := mkFailResult req "failed - role change failed",
          sess := r1.sess, effects := searchEffects ++ r1.effects }
      else if r1.sess.last_role_change_performed.getD false then
        let s := save_changes env.save_changes_ok
        if !s.1 then
          { returned := false, result := mkFailResult req "failed - save failed",
            sess := r1.sess, effects := searchEffects ++ r1.effects ++ s.2 }
        else finishUser req r1.sess (searchEffects ++ r1.effects ++ s.2)
      else finishUser req r1.sess (searchEffects ++ r1.effects)
    else if branch_requested then
      -- branch only, auto-save inside the branch step (1029-1060)
      let r2 := change_user_branch_hierarchical env.branch sess
        (hierarchy_to_use req) true
      if !r2.ok then
        { returned := false, result := mkFailResult req "failed - branch change failed",
          sess := r2.sess, effects := searchEffects ++ r2.effects }
      else finishUser req r2.sess (searchEffects ++ r2.effects)
    else
      -- neither requested (1061-1063)
      finishUser req sess searchEffects

/-! ## save_results — csp_admin_change_role_and_branch.py lines 235-252 -/

/-- The `"successful"` count of the serialized report (line 243): results whose
status starts with `"success"`. -/
def successful_count (results : List UserResult) : Nat :=
  results.countP (fun r => strStarts r.status "success")

/-- The `"failed"` count of the serialized report (line 245): results whose
status starts with `"failed"`. -/
def failed_count (results : List UserResult) : Nat :=
  results.countP (fun r => strStarts r.status "failed")

/-- A status from the closed success/failure vocabulary. -/
def validStatus (s : String) : Bool :=
  strStarts s "success" || strStarts s "failed"

/-- The literal statuses `run_batch` itself appends outside
`process_single_user` (lines 1169-1218). -/
def run_batch_statuses : List String :=
  ["failed - login failed", "failed - navigation failed", "failed - start timeout"]

/-! ## CSPBranchHandler — `src/src/features/csp/handlers/csp_branch_handler.py` -/

/-- Message of the `InfiniteLoopException` raised by `safe_act`
(action_counter.py lines 54-59), minus the interpolated step name and limit. -/
def infiniteLoopMsg : String :=
  "Exceeded maximum actions limit. Possible infinite loop detected."

/-- Outcome of running a block of `safe_act` calls: the exception if one was
raised, the counter afterwards, and the actions actually dispatched. -/
structure ActsResult where
  err : Option PyErr
  counter : ActionCounter
  effects : List DriverEffect
deriving DecidableEq, Repr

/-- Runs consecutive `safe_act` calls until one raises `InfiniteLoopException`;
the raising call dispatches nothing. -/
def runActs (c : ActionCounter) : List DriverEffect → ActsResult
  | [] => { err := none, counter := c, effects := [] }
  | a :: rest =>
      let r := safe_act c
      if r.raised then
        { err := some (.infiniteLoop infiniteLoopMsg), counter := r.counter, effects := [] }
      else
        let rr := runActs r.counter rest
        { err := rr.err, counter := rr.counter, effects := a :: rr.effects }

/-- Oracle answers for the two `act_get` verifications inside
`CSPBranchHandler`. -/
structure HandlerEnv where
  bank_checkbox_checked : Bool
  scope_field_updated : Bool
deriving DecidableEq, Repr

/-- Outcome of `CSPBranchHandler.change_branch_hierarchical`: the returned
value or raised exception, the action counter afterwards, and the driver
actions issued. -/
structure HandlerResult where
  res : Except PyErr Bool
  counter : ActionCounter
  effects : List DriverEffect
deriving Repr

/-- Embeds `CSPBranchHandler.change_branch_hierarchical` together with its
`_change_bank_user` and `_change_scope` helpers (csp_branch_handler.py lines
24-163): a hierarchy with fewer than 3 levels is rejected with `False` before
any driver action; otherwise the Bank user and Scope fields are driven through
the 3 levels, with an exception-raising verification after each phase. -/
def handler_change_branch_hierarchical (env : HandlerEnv) (c : ActionCounter)
    (branch_hierarchy : List String) : HandlerResult :=
  if branch_hierarchy.length < 3 then
    -- guard (lines 27-31): return False, no `safe_act` issued
    { res := .ok false, counter := c, effects := [] }
  else
    let bank := branch_hierarchy.getD 0 ""
    let region := branch_hierarchy.getD 1 ""
    let branch := branch_hierarchy.getD 2 ""
    -- Roles tab (37-40) then `_change_bank_user` clicks (63-85)
    let r1 := runActs c
      [.navigate, .navigate, .selectLevel bank, .selectLevel region, .selectLevel branch]
    match r1.err with
    | some e => { res := .error e, counter := r1.counter, effects := r1.effects }
    | none =>
        -- checkbox verification via `act_get` (88-101), not counted by safe_act
        if !env.bank_checkbox_checked then
          { res := .error (.other "Branch checkbox should be auto-checked"),
            counter := r1.counter, effects := r1.effects ++ [.query] }
        else
          -- apply bank selection (103-107), then `_change_scope` (116-144)
          let r2 := runActs r1.counter
            [.applySelection, .navigate, .selectLevel bank, .selectLevel region,
             .selectLevel branch, .applySelection]
          match r2.err with
          | some e =>
              { res := .error e, counter := r2.counter,
                effects := r1.effects ++ [.query] ++ r2.effects }
          | none =>
              -- scope verification via `act_get` (146-160)
              if !env.scope_field_updated then
                { res := .error (.other "Scope field should show selected branch path"),
                  counter := r2.counter,
                  effects := r1.effects ++ [.query] ++ r2.effects ++ [.query] }
              else
                { res := .ok true, counter := r2.counter,
                  effects := r1.effects ++ [.query] ++ r2.effects ++ [.query] }

/-! ## Supporting lemmas -/

/-- While the breaker is closed, `call` goes straight to the wrapped function. -/
theorem breakerCall_closed (s : BreakerState) (now : Int) (outcome : Except PyErr Bool)
    (h : s.is_open = false) :
    breakerCall s now outcome = breakerRecordOutcome s now outcome := by
  unfold breakerCall
  rw [h]
  simp

/-- A character list is a prefix of itself followed by anything. -/
theorem isPrefixOf_append_self (l r : List Char) : l.isPrefixOf (l ++ r) = true := by
  induction l with
  | nil => simp [List.isPrefixOf]
  | cons a as ih => simp [List.isPrefixOf, ih]

/-- Two prefixes of the same list start with the same character. -/
theorem isPrefixOf_head (a b : Char) (as bs l : List Char)
    (h1 : (a :: as).isPrefixOf l = true) (h2 : (b :: bs).isPrefixOf l = true) : a = b := by
  cases l with
  | nil => simp [List.isPrefixOf] at h1
  | cons c cs =>
      simp [List.isPrefixOf] at h1 h2
      exact h1.1.trans h2.1.symm

/-- A status starting with `"success"` does not start with `"failed"`. -/
theorem success_not_failed (s : String) (h : strStarts s "success" = true) :
    strStarts s "failed" = false := by
  by_contra h2
  rw [Bool.not_eq_false] at h2
  unfold strStarts at h h2
  have e1 : "success".data = 's' :: "uccess".data := rfl
  have e2 : "failed".data = 'f' :: "ailed".data := rfl
  rw [e1] at h
  rw [e2] at h2
  exact absurd (isPrefixOf_head _ _ _ _ _ h h2) (by decide)

/-- Appending to `"failed - "` keeps the `"failed"` prefix. -/
theorem failed_prepend (e : String) : strStarts ("failed - " ++ e) "failed" = true := by
  unfold strStarts
  have hd : ("failed - " ++ e).data = "failed".data ++ (" - ".data ++ e.data) := rfl
  rw [hd]
  exact isPrefixOf_append_self _ _

/-- Every status the success epilogue can produce is in the closed vocabulary. -/
theorem validStatus_successStatus (a b c d : Bool) :
    validStatus (successStatus a b c d) = true := by
  cases a <;> cases b <;> cases c <;> cases d <;> decide

/-- The hierarchy `process_single_user` navigates with is never empty. -/
theorem hierarchy_to_use_ne_empty (req : UserChangeRequest) :
    (hierarchy_to_use req).isEmpty = false := by
  unfold hierarchy_to_use
  cases hbh : req.branch_hierarchy with
  | none => simp [pyList, convert_to_hierarchy]
  | some l =>
      cases l with
      | nil => simp [pyList, convert_to_hierarchy]
      | cons x xs => simp [pyList, convert_to_hierarchy]

/-! ## Claim theorems -/

/-- Claim C10: for every branch hierarchy that is empty or has fewer than 3
levels, `CSPBranchHandler.change_branch_hierarchical` returns `False` without
issuing any driver action (and without touching the action counter). -/
theorem c10_short_hierarchy_rejected (env : HandlerEnv) (c : ActionCounter)
    (branch_hierarchy : List String) (hlen : branch_hierarchy.length < 3) :
    handler_change_branch_hierarchical env c branch_hierarchy =
      { res := .ok false, counter := c, effects := [] } := by
  unfold handler_change_branch_hierarchical
  rw [if_pos hlen]

/-- Witness for C10 at the empty hierarchy. -/
theorem c10_short_hierarchy_rejected_witness :
    handler_change_branch_hierarchical
        { bank_checkbox_checked := true, scope_field_updated := true }
        { count := 0, max_actions := 50 } [] =
      { res := .ok false, counter := { count := 0, max_actions := 50 }, effects := [] } :=
  c10_short_hierarchy_rejected _ _ _ (by decide)

/-- Claim C9: whenever the handler passed to
`HandlerWrapper.execute_with_retry` returns without raising — whatever value it
returns, `False` included — the first attempt is reported as success (`True`)
and the handler is invoked exactly once, with no retry. -/
theorem c9_nonraising_return_is_success (st : BreakerState)
    (outcomes : Nat → Except PyErr Bool) (times : Nat → Int) (mr : Nat) (v : Bool)
    (hopen : st.is_open = false) (h0 : outcomes 0 = .ok v) (hmr : 1 ≤ mr) :
    (execute_with_retry st outcomes times mr).success = true ∧
    (execute_with_retry st outcomes times mr).invocations = 1 := by
  obtain ⟨r, rfl⟩ : ∃ r, mr = r + 1 := ⟨mr - 1, by omega⟩
  unfold execute_with_retry executeWithRetryAux
  rw [breakerCall_closed _ _ _ hopen, h0]
  simp [breakerRecordOutcome]

/-- Witness for C9: a handler returning the falsy `False` still counts as
success on attempt 1. -/
theorem c9_nonraising_return_is_success_witness :
    (execute_with_retry (mkBreaker 3 60) (fun _ => .ok false) (fun _ => 0) 5).success
        = true ∧
    (execute_with_retry (mkBreaker 3 60) (fun _ => .ok false) (fun _ => 0) 5).invocations
        = 1 :=
  c9_nonraising_return_is_success _ _ _ _ false rfl rfl (by decide)

/-- Every run of the hierarchical branch change in which the final two-field
verification fails returns failure, wherever the run got to before it. -/
theorem branch_fail_of_final (env : BranchEnv) (sess : SessionData)
    (branch_hierarchy : List String) (auto_save : Bool)
    (hff : (env.final_bank && env.final_scope) = false) :
    (change_user_branch_hierarchical env sess branch_hierarchy auto_save).ok = false := by
  unfold change_user_branch_hierarchical branchScopePart branchFinalPart
  simp only [hff, Bool.not_false, if_true]
  repeat' split
  all_goals rfl

/-- Claim C4: `change_user_branch_hierarchical` reports success only when the
final verification finds the target leaf in BOTH the Bank-user field and the
Scope field; whenever either final field check fails, the whole branch step
returns failure — a single-field match is never reported as success. -/
theorem c4_branch_success_needs_both_final_checks (env : BranchEnv)
    (sess : SessionData) (branch_hierarchy : List String) (auto_save : Bool) :
    ((change_user_branch_hierarchical env sess branch_hierarchy auto_save).ok = true →
      env.final_bank = true ∧ env.final_scope = true) ∧
    (env.final_bank = false ∨ env.final_scope = false →
      (change_user_branch_hierarchical env sess branch_hierarchy auto_save).ok = false) := by
  constructor
  · intro hok
    cases hb : env.final_bank <;> cases hs : env.final_scope
    case false.false | false.true | true.false =>
      have hf := branch_fail_of_final env sess branch_hierarchy auto_save (by simp [hb, hs])
      rw [hf] at hok
      exact absurd hok (by decide)
    case true.true => exact ⟨rfl, rfl⟩
  · intro hor
    apply branch_fail_of_final
    rcases hor with h | h <;> simp [h]

/-- The all-good branch environment used to witness C4. -/
def envBranchAll : BranchEnv :=
  { bank_pre := false, bank_panel_loads := true, bank_verify := true,
    scope_pre := false, scope_panel_loads := true, scope_verify := true,
    final_bank := true, final_scope := true, save_ok := true, save_wait := true }

/-- Witness for C4 on a concrete successful run. -/
theorem c4_branch_success_needs_both_final_checks_witness :
    envBranchAll.final_bank = true ∧ envBranchAll.final_scope = true :=
  (c4_branch_success_needs_both_final_checks envBranchAll emptySession
    ["VIB Bank", "North", "003"] true).1 (by decide)

/-- A handler that raises `InfiniteLoopException` on its first attempt and
returns normally on every later attempt. -/
def loopThenOk (msg : String) : Nat → Except PyErr Bool :=
  fun n => if n == 0 then .error (.infiniteLoop msg) else .ok true

/-- Counterexample to C1: a step failing with `InfiniteLoopException` IS
re-attempted.  `HandlerWrapper.execute_with_retry` (max_retries 5, the shared
breaker fresh) invokes the handler a second time after the first attempt
raised `InfiniteLoopException`, and even reports overall success; the
`with_retry` decorator with 3 attempts and its default empty
`exceptions_to_skip` — no call site ever lists `InfiniteLoopException` there —
likewise invokes the wrapped function twice. -/
theorem c1_runaway_retried_counterexample :
    (execute_with_retry (mkBreaker 3 60) (loopThenOk infiniteLoopMsg)
        (fun _ => 0) 5).invocations = 2 ∧
    (execute_with_retry (mkBreaker 3 60) (loopThenOk infiniteLoopMsg)
        (fun _ => 0) 5).success = true ∧
    (with_retry (fun _ => false) (loopThenOk infiniteLoopMsg) 3).invocations = 2 := by
  decide

/-- Claim C1, amended: the call that takes the counter past its ceiling raises
`InfiniteLoopException` without dispatching the driver action; but the retry
wrappers do not exempt that error: `execute_with_retry` re-attempts the step
(two handler invocations when attempts remain), `with_retry` retries it
whenever its budget allows (no caller puts `InfiniteLoopException` in
`exceptions_to_skip`), and only a `with_retry` budget of 1 — as at the
handler call sites — avoids a re-attempt. -/
theorem c1_runaway_guard_amended :
    (∀ c : ActionCounter, c.max_actions < c.count + 1 →
      (safe_act c).raised = true ∧ (safe_act c).dispatched = false) ∧
    (∀ (st : BreakerState) (times : Nat → Int), st.is_open = false →
      (execute_with_retry st (loopThenOk infiniteLoopMsg) times 5).success = true ∧
      (execute_with_retry st (loopThenOk infiniteLoopMsg) times 5).invocations = 2) ∧
    (∀ mr : Nat, 2 ≤ mr →
      2 ≤ (with_retry (fun _ => false) (loopThenOk infiniteLoopMsg) mr).invocations) ∧
    (with_retry (fun _ => false)
        (fun _ => .error (.infiniteLoop infiniteLoopMsg)) 1).invocations = 1 := by
  refine ⟨?_, ?_, ?_, by decide⟩
  · intro c h
    simp [safe_act, h]
  · intro st times hopen
    have hnet : is_network_error (PyErr.infiniteLoop infiniteLoopMsg).msg = false := by
      decide
    constructor <;>
      simp [execute_with_retry, executeWithRetryAux, loopThenOk, breakerCall, hopen,
        breakerRecordOutcome, hnet]
  · intro mr h
    obtain ⟨k, rfl⟩ : ∃ k, mr = k + 2 := ⟨mr - 2, by omega⟩
    simp [with_retry, withRetryAux, loopThenOk]

/-- Witness for the amended C1 at concrete inputs. -/
theorem c1_runaway_guard_amended_witness :
    (safe_act { count := 50, max_actions := 50 }).raised = true ∧
    (execute_with_retry (mkBreaker 3 60) (loopThenOk infiniteLoopMsg)
        (fun _ => 1) 5).invocations = 2 ∧
    2 ≤ (with_retry (fun _ => false) (loopThenOk infiniteLoopMsg) 5).invocations :=
  ⟨(c1_runaway_guard_amended.1 { count := 50, max_actions := 50 } (by decide)).1,
   (c1_runaway_guard_amended.2.1 (mkBreaker 3 60) (fun _ => 1) rfl).2,
   c1_runaway_guard_amended.2.2.1 5 (by decide)⟩

/-- Counterexample to C5: a half-open probe that fails with a NON-network
error does not return the breaker to Open.  With the breaker open (3 recorded
failures, threshold 3, last failure at time 0, cooldown 60) and the probe at
time 100 failing with `"element not found"`, the wrapped function is invoked,
but afterwards the breaker is CLOSED and the cooldown timer still points at
the old failure time — contradicting `if that call fails the breaker returns
to Open with the cooldown timer restarted`. -/
theorem c5_halfopen_nonnetwork_counterexample :
    (breakerCall
        { failure_count := 3, failure_threshold := 3, cooldown_seconds := 60,
          last_failure_time := some 0, is_open := true }
        100 (.error (.other "element not found"))).invoked = true ∧
    (breakerCall
        { failure_count := 3, failure_threshold := 3, cooldown_seconds := 60,
          last_failure_time := some 0, is_open := true }
        100 (.error (.other "element not found"))).state.is_open = false ∧
    (breakerCall
        { failure_count := 3, failure_threshold := 3, cooldown_seconds := 60,
          last_failure_time := some 0, is_open := true }
        100 (.error (.other "element not found"))).state.last_failure_time = some 0 := by
  refine ⟨rfl, ?_, ?_⟩ <;> decide

/-- Claim C5, amended: once `cooldown_seconds` have elapsed since the recorded
last failure, the next `call` is let through to the wrapped function; if it
succeeds the breaker is Closed with the failure counter reset to zero; if it
fails with a network-classified error (the counter of a reached-open state
being at or above the threshold) the breaker returns to Open with the cooldown
timer restarted from the new failure time; if it fails with a non-network
error the breaker stays closed and the counter and timer are unchanged. -/
theorem c5_halfopen_amended (st : BreakerState) (now t : Int)
    (outcome : Except PyErr Bool) (hopen : st.is_open = true)
    (hlast : st.last_failure_time = some t) (hcool : st.cooldown_seconds ≤ now - t) :
    (breakerCall st now outcome).invoked = true ∧
    (∀ v, outcome = .ok v →
      (breakerCall st now outcome).state.is_open = false ∧
      (breakerCall st now outcome).state.failure_count = 0) ∧
    (∀ e, outcome = .error e → is_network_error e.msg = true →
      st.failure_threshold ≤ st.failure_count →
      (breakerCall st now outcome).state.is_open = true ∧
      (breakerCall st now outcome).state.last_failure_time = some now) ∧
    (∀ e, outcome = .error e → is_network_error e.msg = false →
      (breakerCall st now outcome).state.is_open = false ∧
      (breakerCall st now outcome).state.failure_count = st.failure_count ∧
      (breakerCall st now outcome).state.last_failure_time = some t) := by
  have hred : breakerCall st now outcome =
      breakerRecordOutcome { st with is_open := false } now outcome := by
    unfold breakerCall
    rw [hopen, hlast]
    simp only [if_true]
    rw [if_neg (by omega)]
  refine ⟨?_, ?_, ?_, ?_⟩
  · rw [hred]
    cases outcome with
    | ok v => rfl
    | error e =>
        unfold breakerRecordOutcome
        repeat' split
        all_goals rfl
  · intro v hv
    rw [hred, hv]
    exact ⟨rfl, rfl⟩
  · intro e he hnet hthr
    have hstep : breakerRecordOutcome { st with is_open := false } now (.error e) =
        ⟨.error e,
         ⟨st.failure_count + 1, st.failure_threshold, st.cooldown_seconds, some now,
          if st.failure_threshold ≤ st.failure_count + 1 then true else false⟩,
         true⟩ := by
      unfold breakerRecordOutcome
      simp only [hnet]
      rw [if_pos trivial]
    rw [hred, he, hstep]
    refine ⟨?_, rfl⟩
    show (if st.failure_threshold ≤ st.failure_count + 1 then true else false) = true
    rw [if_pos (by omega)]
  · intro e he hnet
    have hstep : breakerRecordOutcome { st with is_open := false } now (.error e) =
        { result := .error e, state := { st with is_open := false },
          invoked := true } := by
      unfold breakerRecordOutcome
      simp only [hnet]
      rw [if_neg (by decide)]
    rw [hred, he, hstep]
    exact ⟨rfl, rfl, hlast⟩

/-- Witness for the amended C5: a successful half-open probe closes the
breaker and zeroes the counter. -/
theorem c5_halfopen_amended_witness :
    (breakerCall
        { failure_count := 3, failure_threshold := 3, cooldown_seconds := 60,
          last_failure_time := some 0, is_open := true }
        100 (.ok true)).invoked = true ∧
    (breakerCall
        { failure_count := 3, failure_threshold := 3, cooldown_seconds := 60,
          last_failure_time := some 0, is_open := true }
        100 (.ok true)).state.is_open = false ∧
    (breakerCall
        { failure_count := 3, failure_threshold := 3, cooldown_seconds := 60,
          last_failure_time := some 0, is_open := true }
        100 (.ok true)).state.failure_count = 0 := by
  have h := c5_halfopen_amended
    { failure_count := 3, failure_threshold := 3, cooldown_seconds := 60,
      last_failure_time := some 0, is_open := true }
    100 0 (.ok true) rfl rfl (by decide)
  exact ⟨h.1, (h.2.1 true rfl).1, (h.2.1 true rfl).2⟩

/-- Counterexample to C6: `"Read timed out"` matches the code's own timeout
patterns (`is_timeout_error` returns true) yet `is_network_error` returns
false — the network classifier has no timeout keyword, so timeout-pattern
failures get the short linear backoff and never feed the circuit breaker. -/
theorem c6_timeout_not_network_counterexample :
    is_timeout_error "Read timed out" = true ∧
    is_network_error "Read timed out" = false := by
  decide

/-- Claim C6, amended: errors matching a DNS or connection pattern are
network-classified by `is_network_error`, receive the longer exponential
backoff and increment the breaker's failure counter; timeout patterns, by
contrast, are recognized only by the separate `is_timeout_error` and are not
network-class unless the message also contains a connection keyword. -/
theorem c6_network_classifier_amended :
    (∀ msg : String,
      strContains "dns" (strLower msg) = true ∨
        strContains "connection" (strLower msg) = true →
      is_network_error msg = true) ∧
    (is_timeout_error "Read timed out" = true) ∧
    (is_network_error "Read timed out" = false) ∧
    (∀ (st : BreakerState) (now : Int) (e : PyErr), st.is_open = false →
      is_network_error e.msg = true →
      (breakerCall st now (.error e)).state.failure_count = st.failure_count + 1 ∧
      (breakerCall st now (.error e)).state.last_failure_time = some now) ∧
    (∀ (e : PyErr) (attempt : Nat), is_network_error e.msg = true →
      handlerDelay e attempt = min (5 * 2 ^ attempt) 120) := by
  refine ⟨?_, by decide, by decide, ?_, ?_⟩
  · intro msg h
    simp only [is_network_error, List.any_eq_true]
    cases h with
    | inl h => exact ⟨"dns", by simp [network_keywords], h⟩
    | inr h => exact ⟨"connection", by simp [network_keywords], h⟩
  · intro st now e hopen hnet
    rw [breakerCall_closed _ _ _ hopen]
    unfold breakerRecordOutcome
    simp only [hnet]
    rw [if_pos trivial]
    exact ⟨rfl, rfl⟩
  · intro e attempt h
    simp [handlerDelay, h]

/-- Witness for the amended C6 at concrete inputs. -/
theorem c6_network_classifier_amended_witness :
    is_network_error "dns lookup failure" = true ∧
    handlerDelay (.other "connection refused") 2 = min (5 * 2 ^ 2) 120 :=
  ⟨c6_network_classifier_amended.1 "dns lookup failure" (Or.inl (by decide)),
   c6_network_classifier_amended.2.2.2.2 (.other "connection refused") 2 (by decide)⟩

/-- Folding the breaker over an appended list composes. -/
theorem foldBreaker_append (evs1 evs2 : List CallEvent) :
    ∀ st, foldBreaker st (evs1 ++ evs2) = foldBreaker (foldBreaker st evs1) evs2 := by
  induction evs1 with
  | nil => intro st; rfl
  | cons ev rest ih =>
      intro st
      show foldBreaker (breakerCall st ev.time ev.outcome).state (rest ++ evs2) = _
      rw [ih]
      rfl

/-- A run of consecutive network-classified failures that stays strictly below
the threshold leaves the breaker closed, adds one failure per call, and tracks
the last failure time. -/
theorem foldBreaker_closed_netrun (evs : List CallEvent) :
    ∀ st : BreakerState, st.is_open = false → evs.all isNetFailure = true →
      st.failure_count + evs.length < st.failure_threshold →
      foldBreaker st evs =
        ⟨st.failure_count + evs.length, st.failure_threshold, st.cooldown_seconds,
         lastTimeAfter evs st.last_failure_time, false⟩ := by
  induction evs with
  | nil =>
      intro st h1 _ _
      obtain ⟨c, th, cd, lt, io⟩ := st
      simp only at h1
      subst h1
      simp [foldBreaker, lastTimeAfter]
  | cons ev rest ih =>
      intro st h1 h2 h3
      rw [List.all_cons, Bool.and_eq_true] at h2
      obtain ⟨h2a, h2b⟩ := h2
      cases hout : ev.outcome with
      | ok v =>
          exfalso
          simp [isNetFailure, hout] at h2a
      | error e =>
          have hnet : is_network_error e.msg = true := by
            simp [isNetFailure, hout] at h2a
            exact h2a
          show foldBreaker (breakerCall st ev.time ev.outcome).state rest = _
          rw [hout, breakerCall_closed _ _ _ h1]
          have hrec : (breakerRecordOutcome st ev.time (.error e)).state =
              ⟨st.failure_count + 1, st.failure_threshold, st.cooldown_seconds,
               some ev.time, false⟩ := by
            unfold breakerRecordOutcome
            simp only [hnet]
            rw [if_pos trivial]
            show (⟨st.failure_count + 1, st.failure_threshold, st.cooldown_seconds,
              some ev.time,
              if st.failure_threshold ≤ st.failure_count + 1 then true
                else st.is_open⟩ : BreakerState) = _
            rw [if_neg (by simp at h3; omega), h1]
          rw [hrec]
          rw [ih _ rfl h2b (by simp at h3 ⊢; omega)]
          have hc : st.failure_count + 1 + rest.length =
              st.failure_count + (ev :: rest).length := by
            simp
            omega
          rw [hc]
          rfl

/-- While the breaker is open with `elapsed < cooldown_seconds`, `call` raises
the circuit-open error at once, leaves the state untouched, and never invokes
the wrapped function. -/
theorem breakerCall_open_rejects (s : BreakerState) (now t : Int)
    (outcome : Except PyErr Bool) (hopen : s.is_open = true)
    (hlast : s.last_failure_time = some t) (hcool : now - t < s.cooldown_seconds) :
    breakerCall s now outcome =
      ⟨.error (.circuitOpen (circuitOpenMsg (s.cooldown_seconds - (now - t)))),
       s, false⟩ := by
  unfold breakerCall
  rw [hopen, hlast]
  simp only [if_true]
  rw [if_pos hcool]

/-- Claim C2: starting from a fresh breaker, once `failure_threshold`
consecutive network-classified failures have been recorded (the first
`threshold - 1` at arbitrary times, the last at time `t`), the breaker is open
with its timer at `t`; and while open and before `cooldown_seconds` have
elapsed since that last failure, every invocation of `call` raises the
circuit-open error immediately, leaves the state unchanged, and never invokes
the wrapped function. -/
theorem c2_breaker_opens_and_rejects (thr : Nat) (cooldown : Int)
    (evs : List CallEvent) (t now : Int) (e : PyErr) (outcome : Except PyErr Bool)
    (hlen : evs.length + 1 = thr)
    (hall : evs.all isNetFailure = true)
    (hnet : is_network_error e.msg = true)
    (hcool : now - t < cooldown) :
    (foldBreaker (mkBreaker thr cooldown) (evs ++ [⟨t, .error e⟩])).is_open = true ∧
    (foldBreaker (mkBreaker thr cooldown)
        (evs ++ [⟨t, .error e⟩])).last_failure_time = some t ∧
    breakerCall (foldBreaker (mkBreaker thr cooldown) (evs ++ [⟨t, .error e⟩]))
        now outcome =
      ⟨.error (.circuitOpen (circuitOpenMsg (cooldown - (now - t)))),
       foldBreaker (mkBreaker thr cooldown) (evs ++ [⟨t, .error e⟩]), false⟩ := by
  have hfold : foldBreaker (mkBreaker thr cooldown) (evs ++ [⟨t, .error e⟩]) =
      ⟨thr, thr, cooldown, some t, true⟩ := by
    rw [foldBreaker_append]
    rw [foldBreaker_closed_netrun evs (mkBreaker thr cooldown) rfl hall
      (by simp [mkBreaker]; omega)]
    show (breakerCall ⟨0 + evs.length, thr, cooldown, lastTimeAfter evs none, false⟩
      t (.error e)).state = _
    rw [breakerCall_closed _ _ _ rfl]
    unfold breakerRecordOutcome
    simp only [hnet]
    rw [if_pos trivial]
    show (⟨0 + evs.length + 1, thr, cooldown, some t,
      if thr ≤ 0 + evs.length + 1 then true else false⟩ : BreakerState) = _
    rw [if_pos (by omega)]
    have hc : 0 + evs.length + 1 = thr := by omega
    rw [hc]
  refine ⟨by rw [hfold], by rw [hfold], ?_⟩
  rw [hfold]
  exact breakerCall_open_rejects _ now t outcome rfl rfl hcool

/-- The two pre-threshold network failures used to witness C2. -/
def c2evs : List CallEvent :=
  [⟨0, .error (.other "connection refused")⟩,
   ⟨5, .error (.other "network is unreachable")⟩]

/-- Witness for C2: with threshold 3 and cooldown 60, three network failures
at times 0, 5, 10 open the breaker, and a call at time 30 is rejected without
invoking the wrapped function. -/
theorem c2_breaker_opens_and_rejects_witness :
    (foldBreaker (mkBreaker 3 60)
        (c2evs ++ [⟨10, .error (.other "dns failure")⟩])).is_open = true ∧
    (breakerCall (foldBreaker (mkBreaker 3 60)
        (c2evs ++ [⟨10, .error (.other "dns failure")⟩])) 30 (.ok true)).invoked
      = false := by
  have h := c2_breaker_opens_and_rejects 3 60 c2evs 10 30 (.other "dns failure")
    (.ok true) (by decide) (by decide) (by decide) (by decide)
  exact ⟨h.1, congrArg BreakerCallResult.invoked h.2.2⟩

/-- An `already matching` run of `process_single_user` computed in full: when
the user is found, both role and branch are requested, and every check of the
remote fields answers `already matching`, the run succeeds with the
no-changes-needed status, leaves the session flags all `False`, and issues
only navigation, query and modal-closing actions. -/
theorem already_correct_run (env : PipelineEnv) (sess : SessionData)
    (req : UserChangeRequest)
    (hr : pyStr req.new_role = true)
    (hb : (pyStr req.new_branch || pyList req.branch_hierarchy) = true)
    (h1 : env.user_found = true) (h2 : env.role.on_roles_tab = true)
    (h3 : env.role.role_pre_match = true)
    (h4 : env.branch.bank_pre = true) (h5 : env.branch.scope_pre = true)
    (h6 : env.branch.final_bank = true) (h7 : env.branch.final_scope = true) :
    process_single_user env sess req =
      { returned := true,
        result := { user_email := req.target_user,
                    new_role := orUnchanged req.new_role,
                    new_branch := effective_new_branch req,
                    status := "success - no changes needed, already configured correctly" },
        sess := ⟨some false, some false, some false⟩,
        effects := [.navigate, .query, .navigate, .query, .query, .navigate, .query,
                    .query, .query, .query, .closeModal] } := by
  unfold process_single_user change_user_role change_user_branch_hierarchical
    branchScopePart branchFinalPart finishUser successStatus searchEffects
  simp [h1, h2, h3, h4, h5, h6, h7, hr, hb, hierarchy_to_use_ne_empty]

/-- Claim C3: when the pre-checks report that the remote state already matches
every requested field (role already equal; both branch fields already
containing the target leaf, their final re-checks included), the request
succeeds with the already-configured-correctly status, no mutating action is
issued, the Save operation is never invoked — and a second run of the same
request against the unchanged remote state (any environment answering the same
matching checks, any session) produces the identical outcome. -/
theorem c3_already_correct_skips_save_idempotent (env env2 : PipelineEnv)
    (sess sess2 : SessionData) (req : UserChangeRequest)
    (hr : pyStr req.new_role = true)
    (hb : (pyStr req.new_branch || pyList req.branch_hierarchy) = true)
    (h1 : env.user_found = true) (h2 : env.role.on_roles_tab = true)
    (h3 : env.role.role_pre_match = true)
    (h4 : env.branch.bank_pre = true) (h5 : env.branch.scope_pre = true)
    (h6 : env.branch.final_bank = true) (h7 : env.branch.final_scope = true)
    (g1 : env2.user_found = true) (g2 : env2.role.on_roles_tab = true)
    (g3 : env2.role.role_pre_match = true)
    (g4 : env2.branch.bank_pre = true) (g5 : env2.branch.scope_pre = true)
    (g6 : env2.branch.final_bank = true) (g7 : env2.branch.final_scope = true) :
    (process_single_user env sess req).returned = true ∧
    (process_single_user env sess req).result.status =
      "success - no changes needed, already configured correctly" ∧
    (process_single_user env sess req).effects.all
      (fun ef => !ef.isMutating) = true ∧
    (process_single_user env sess req).effects.count DriverEffect.clickSave = 0 ∧
    process_single_user env2 sess2 req = process_single_user env sess req := by
  rw [already_correct_run env sess req hr hb h1 h2 h3 h4 h5 h6 h7,
    already_correct_run env2 sess2 req hr hb g1 g2 g3 g4 g5 g6 g7]
  refine ⟨rfl, rfl, rfl, rfl, rfl⟩

/-- The all-matching pipeline environment used to witness C3. -/
def envAlready : PipelineEnv :=
  { user_found := true,
    role := { on_roles_tab := true, role_pre_match := true, role_populated := false,
              role_populated_retry := false, role_verify := false },
    branch := { bank_pre := true, bank_panel_loads := false, bank_verify := false,
                scope_pre := true, scope_panel_loads := false, scope_verify := false,
                final_bank := true, final_scope := true, save_ok := false,
                save_wait := false },
    save_changes_ok := false }

/-- The role-and-branch request used to witness C3. -/
def reqAlready : UserChangeRequest :=
  { target_user := "user1@example.com", new_role := some "manager",
    new_branch := none, branch_hierarchy := some ["VIB Bank", "North", "003"] }

/-- Witness for C3 at a concrete all-matching run. -/
theorem c3_already_correct_skips_save_idempotent_witness :
    (process_single_user envAlready emptySession reqAlready).returned = true ∧
    (process_single_user envAlready emptySession reqAlready).result.status =
      "success - no changes needed, already configured correctly" ∧
    (process_single_user envAlready emptySession reqAlready).effects.count
      DriverEffect.clickSave = 0 := by
  have h := c3_already_correct_skips_save_idempotent envAlready envAlready
    emptySession emptySession reqAlready (by decide) (by decide) rfl rfl rfl rfl rfl
    rfl rfl rfl rfl rfl rfl rfl rfl rfl
  exact ⟨h.1, h.2.1, h.2.2.2.1⟩

/-- Every status `process_single_user` records starts with `"success"` or
`"failed"`. -/
theorem process_status_valid (env : PipelineEnv) (sess : SessionData)
    (req : UserChangeRequest) :
    validStatus (process_single_user env sess req).result.status = true := by
  simp only [process_single_user, mkFailResult, finishUser]
  repeat' split
  all_goals first
    | rfl
    | exact validStatus_successStatus _ _ _ _

/-- For a result list drawn from the closed vocabulary, the success count and
the failure count partition the list. -/
theorem count_valid_statuses (results : List UserResult)
    (h : ∀ r ∈ results, validStatus r.status = true) :
    successful_count results + failed_count results = results.length := by
  induction results with
  | nil => rfl
  | cons r rs ih =>
      have hr := h r (List.mem_cons_self r rs)
      have hrs : ∀ x ∈ rs, validStatus x.status = true :=
        fun x hx => h x (List.mem_cons_of_mem r hx)
      unfold successful_count failed_count at ih ⊢
      have ihe := ih hrs
      rw [List.countP_cons, List.countP_cons]
      unfold validStatus at hr
      rw [Bool.or_eq_true] at hr
      cases hs : strStarts r.status "success" with
      | true =>
          have hf := success_not_failed r.status hs
          simp [hs, hf, List.length_cons]
          omega
      | false =>
          have hf : strStarts r.status "failed" = true := by
            rcases hr with hx | hx
            · rw [hs] at hx
              exact absurd hx (by decide)
            · exact hx
          simp [hs, hf, List.length_cons]
          omega

/-- Claim C7: every per-request result the batch records — the statuses built
by `process_single_user`, the `failed - <error>` statuses of the exception
paths, and the batch-level session failures — has a status beginning with
`"success"` or `"failed"`, and consequently the report's `successful` count
plus its `failed` count equals `total_users`, the number of recorded
results. -/
theorem c7_status_vocabulary_and_counts :
    (∀ (env : PipelineEnv) (sess : SessionData) (req : UserChangeRequest),
      validStatus (process_single_user env sess req).result.status = true) ∧
    (∀ e : String, validStatus ("failed - " ++ e) = true) ∧
    (run_batch_statuses.all validStatus = true) ∧
    (∀ results : List UserResult, (∀ r ∈ results, validStatus r.status = true) →
      successful_count results + failed_count results = results.length) := by
  refine ⟨process_status_valid, ?_, by decide, count_valid_statuses⟩
  intro e
  unfold validStatus
  rw [failed_prepend e, Bool.or_true]

/-- The sample result list used to witness C7. -/
def resultsSample : List UserResult :=
  [⟨"a@x.com", "manager", "003", "success - role already correct"⟩,
   ⟨"b@x.com", "unchanged", "unchanged", "failed - user not found"⟩]

/-- Witness for C7 at a concrete run and a concrete result list. -/
theorem c7_status_vocabulary_and_counts_witness :
    validStatus (process_single_user
      ⟨false, ⟨true, true, false, false, false⟩,
       ⟨true, false, false, true, false, false, true, true, false, false⟩, false⟩
      emptySession ⟨"x@y.com", none, none, none⟩).result.status = true ∧
    validStatus ("failed - " ++ "boom") = true ∧
    successful_count resultsSample + failed_count resultsSample =
      resultsSample.length :=
  ⟨c7_status_vocabulary_and_counts.1 _ _ _,
   c7_status_vocabulary_and_counts.2.1 "boom",
   c7_status_vocabulary_and_counts.2.2.2 resultsSample (by decide)⟩

/-- Claim C8: a request supplying `new_branch` without a (truthy)
`branch_hierarchy` is navigated via the default 3-level hierarchy
`["VIB Bank", "North", new_branch]`; a request supplying a non-empty
`branch_hierarchy` is navigated via exactly that hierarchy, and `new_branch`
plays no part in the choice. -/
theorem c8_hierarchy_precedence :
    (∀ (req : UserChangeRequest) (b : String), req.new_branch = some b →
      req.branch_hierarchy = none →
      hierarchy_to_use req = ["VIB Bank", "North", b]) ∧
    (∀ (req : UserChangeRequest) (h : List String), req.branch_hierarchy = some h →
      h ≠ [] →
      hierarchy_to_use req = h ∧
        ∀ nb : Option String,
          hierarchy_to_use { req with new_branch := nb } = h) := by
  constructor
  · intro req b hb hh
    simp [hierarchy_to_use, pyList, hh, convert_to_hierarchy, hb]
  · intro req h hh hne
    have hp : pyList (some h) = true := by
      cases h with
      | nil => exact absurd rfl hne
      | cons a t => rfl
    constructor
    · simp [hierarchy_to_use, hh, hp]
    · intro nb
      simp [hierarchy_to_use, hh, hp]

/-- Witness for C8 on the two request shapes. -/
theorem c8_hierarchy_precedence_witness :
    hierarchy_to_use ⟨"u@x.com", some "manager", some "005_THANH XUAN", none⟩ =
      ["VIB Bank", "North", "005_THANH XUAN"] ∧
    hierarchy_to_use
        ⟨"u@x.com", none, some "ignored", some ["VIB Bank", "South", "002"]⟩ =
      ["VIB Bank", "South", "002"] :=
  ⟨c8_hierarchy_precedence.1 _ "005_THANH XUAN" rfl rfl,
   (c8_hierarchy_precedence.2 _ ["VIB Bank", "South", "002"] rfl (by decide)).1⟩
